import Mathlib

/-!
# Verification of the bhyve-api guest-memory and vCPU control layer

A shallow embedding of `src/vm.rs` (crate `bhyve-api`).  The Rust code is a
thin layer over an ioctl request/response channel to the hypervisor kernel
driver; each embedded function is a pure Lean function of the channel's
responses, and additionally returns the list of requests it issued, in order.
Machine integers are modelled as `Nat` (unsigned fields) and `Int` (signed
fields); all flag values occurring in the code are small non-negative bit
patterns.
-/

set_option autoImplicit false

namespace BhyveApi

/-- A segment name, as the byte string handed to `CString::new` (no
terminating NUL included).  `vm_memseg.name` in the ABI is a 64-byte
NUL-terminated buffer (`SPECNAMELEN + 1`). -/
abbrev SegName := List Nat

/-- The `std::io::ErrorKind` values produced by `vm.rs`, plus `osError` for
`Error::last_os_error()` after a failed ioctl.  The `conflict` constructor
is not produced by any embedded function: it exists only to state the
specification's own error taxonomy (spec section 7 lists `Conflict` as a
kind distinct from `InvalidInput`) so that claims phrased in those words can
be settled against the code. -/
inductive ErrorKind where
  | alreadyExists
  | invalidInput
  | invalidData
  | addrNotAvailable
  | osError
  | conflict
  deriving DecidableEq, Repr

/-- Rust's `Result` type. -/
inductive RResult (α : Type) (ε : Type) where
  | ok (val : α)
  | err (e : ε)
  deriving DecidableEq, Repr

-- Constants from `vm.rs` and the ABI headers.

/-- Constant `const MB: u64 = 1024 * 1024` (`vm.rs`). -/
def MB : Nat := 1024 * 1024

/-- Constant `const GB: u64 = 1024 * MB` (`vm.rs`). -/
def GB : Nat := 1024 * MB

/-- Constant `const MAX_BOOTROM_SIZE: usize = 16 * MB` (`vm.rs`). -/
def MAX_BOOTROM_SIZE : Nat := 16 * MB

/-- Constant `const VM_MEM_F_WIRED: i32 = 0x02` (`vm.rs`). -/
def VM_MEM_F_WIRED : Nat := 0x02

/-- Constant `pub const VM_MEMMAP_F_WIRED: c_int = 0x01` (`include/vmm_dev.rs`). -/
def VM_MEMMAP_F_WIRED : Nat := 0x01

/-- Constant `const SPECNAMELEN: usize = 63` (`include/vmm_dev.rs`); the name buffer
of `vm_memseg` holds `SPECNAMELEN + 1` bytes. -/
def SPECNAMELEN : Nat := 63

/-- Constant `libc::PROT_READ`. -/
def PROT_READ : Nat := 1

/-- Constant `libc::PROT_WRITE`. -/
def PROT_WRITE : Nat := 2

/-- Constant `libc::PROT_EXEC`. -/
def PROT_EXEC : Nat := 4

/-- Constant `pub const CR0_NE: u64 = 0x00000020` (`include/specialreg.rs`). -/
def CR0_NE : Nat := 0x20

/-- The `MemSegId` enum of `vm.rs`. -/
inductive MemSegId where
  | VM_LOWMEM
  | VM_HIGHMEM
  | VM_BOOTROM
  | VM_FRAMEBUFFER
  deriving DecidableEq, Repr

/-- The numeric discriminant of a `MemSegId` (`segid as i32` in `vm.rs`). -/
def MemSegId.toNat : MemSegId → Nat
  | .VM_LOWMEM => 0
  | .VM_HIGHMEM => 1
  | .VM_BOOTROM => 2
  | .VM_FRAMEBUFFER => 3

/-- The `vm_memmap` record of `include/vmm_dev.rs` (request and response of
the map-segment and find-next-mapping ioctls). -/
structure VmMemmap where
  gpa : Nat
  segid : Nat
  segoff : Int
  len : Nat
  prot : Nat
  flags : Nat
  deriving DecidableEq, Repr

/-- The observable content of a `vm_memseg` response: length and the name
bytes stored in its 64-byte buffer (read back through `CStr::from_ptr`, so
up to the first NUL). -/
structure SegRec where
  len : Nat
  name : SegName
  deriving DecidableEq, Repr

/-- One request issued on the external channel (`ioctl` on the VM device),
or the one host-side `libc::mmap` call of the device-memory path. -/
inductive Request where
  | getSeg (segid : MemSegId)
  | allocSeg (segid : MemSegId) (len : Nat) (name : SegName)
  | getnext (gpa : Nat)
  | mmapSeg (m : VmMemmap)
  | devmemOffset (segid : MemSegId)
  | hostMmap (base : Nat) (len : Nat) (offset : Int)
  deriving DecidableEq, Repr

/-- The `VirtualMachine` handle of `vm.rs`, minus the owned file descriptor
(the channel itself is modelled separately, see `Chan`). -/
structure VirtualMachine where
  name : String
  lowmem_limit : Nat
  memflags : Nat
  deriving Repr

/-- Embedding of `VirtualMachine::new`: the handle value constructed on a successful
open of `/dev/vmm/{name}` (`vm.rs` lines 39-56). -/
def VirtualMachine.new (name : String) : VirtualMachine :=
  { name := name, lowmem_limit := 3 * GB, memflags := 0 }

/-- Responses of the external hypervisor channel (and of the host
`libc::mmap`), as consumed by one operation of `vm.rs`.  The kernel peer is
an external collaborator of the crate; this structure is the oracle of its
answers: each field is the response the code would receive for the
corresponding request. -/
structure Chan where
  /-- Response to `VM_GET_MEMSEG` for a segment id. -/
  getSegResp : MemSegId → RResult SegRec ErrorKind
  /-- Whether the `VM_ALLOC_MEMSEG` ioctl succeeds. -/
  allocOk : Bool
  /-- Response to `VM_MMAP_GETNEXT` at a guest-physical address. -/
  getnextResp : Nat → RResult VmMemmap ErrorKind
  /-- Whether the `VM_MMAP_MEMSEG` ioctl succeeds. -/
  mmapOk : Bool
  /-- Response to `VM_DEVMEM_GETOFFSET` for a segment id. -/
  devmemOffResp : MemSegId → RResult Int ErrorKind
  /-- Result of `libc::mmap(base, len, ..., fd, offset)`: the mapped
  address, or `err` for `MAP_FAILED`. -/
  hostMmapResp : Nat → Nat → Int → RResult Nat Unit

/-- Whether the byte string contains a NUL byte (`CString::new` fails
exactly then, with an error that converts to `ErrorKind::InvalidInput`). -/
def hasNul (name : SegName) : Bool :=
  name.any (fun b => b == 0)

/-- Reading a NUL-terminated buffer back as a byte string
(`CStr::from_ptr`): the bytes before the first NUL. -/
def cstrOf (bytes : SegName) : SegName :=
  bytes.takeWhile (fun b => b != 0)

/-- The `flags` value `mmap_memseg` derives from the handle's mem-flags:
`VM_MEMMAP_F_WIRED` when the `VM_MEM_F_WIRED` bit is set, else 0
(`vm.rs` lines 61-64). -/
def memmapFlags (memflags : Nat) : Nat :=
  if memflags &&& VM_MEM_F_WIRED ≠ 0 then VM_MEMMAP_F_WIRED else 0

/-- The `vm_memmap` request record built by `mmap_memseg` (`vm.rs`
lines 66-73). -/
def mkMemmap (vm : VirtualMachine) (gpa : Nat) (segid : MemSegId) (off : Int)
    (len : Nat) (prot : Nat) : VmMemmap :=
  { gpa := gpa, segid := segid.toNat, segoff := off, len := len,
    prot := prot, flags := memmapFlags vm.memflags }

/-- Embedding of `VirtualMachine::mmap_memseg` (`vm.rs` lines 60-101).  Queries
`VM_MMAP_GETNEXT` at `gpa`; if a mapping is reported starting exactly at
`gpa` it is compared field by field against the request (identical → `ok`
without issuing the map ioctl, different → `AlreadyExists`); otherwise the
`VM_MMAP_MEMSEG` ioctl is issued. -/
def mmap_memseg (ch : Chan) (vm : VirtualMachine) (gpa : Nat)
    (segid : MemSegId) (off : Int) (len : Nat) (prot : Nat) :
    RResult Bool ErrorKind × List Request :=
  let mem_data := mkMemmap vm gpa segid off len prot
  let issue : RResult Bool ErrorKind × List Request :=
    if ch.mmapOk then (.ok true, [.getnext gpa, .mmapSeg mem_data])
    else (.err .osError, [.getnext gpa, .mmapSeg mem_data])
  match ch.getnextResp gpa with
  | .ok found =>
    if found.gpa = mem_data.gpa then
      if found.segid = mem_data.segid ∧ found.segoff = mem_data.segoff ∧
          found.prot = mem_data.prot ∧ found.flags = mem_data.flags then
        (.ok true, [.getnext gpa])
      else
        (.err .alreadyExists, [.getnext gpa])
    else
      issue
  | .err _ => issue

/-- Embedding of `VirtualMachine::alloc_memseg` (`vm.rs` lines 139-191).  Converts the
name through `CString::new`, queries `VM_GET_MEMSEG`; an existing segment of
non-zero length is compared against the request ((len, name) equal → `ok`
without issuing the alloc ioctl, unequal → `InvalidInput`); else the name
length is checked against the 64-byte buffer and the `VM_ALLOC_MEMSEG`
ioctl is issued. -/
def alloc_memseg (ch : Chan) (segid : MemSegId) (len : Nat) (name : SegName) :
    RResult Bool ErrorKind × List Request :=
  if hasNul name then (.err .invalidInput, [])
  else
    match ch.getSegResp segid with
    | .err e => (.err e, [.getSeg segid])
    | .ok found =>
      if found.len ≠ 0 then
        if found.len = len ∧ cstrOf found.name = name then
          (.ok true, [.getSeg segid])
        else
          (.err .invalidInput, [.getSeg segid])
      else
        if name.length > 0 ∧ name.length ≥ SPECNAMELEN + 1 then
          (.err .invalidInput, [.getSeg segid])
        else
          if ch.allocOk then (.ok true, [.getSeg segid, .allocSeg segid len name])
          else (.err .osError, [.getSeg segid, .allocSeg segid len name])

/-- Embedding of `VirtualMachine::get_devmem_offset` (`vm.rs` lines 268-281). -/
def get_devmem_offset (ch : Chan) (segid : MemSegId) :
    RResult Int ErrorKind × List Request :=
  (ch.devmemOffResp segid, [.devmemOffset segid])

/-- Embedding of `VirtualMachine::add_devmem` (`vm.rs` lines 208-237): allocate the
segment, resolve its device-memory offset, then `libc::mmap` the region in
the host address space.  The source binds the host-mmap result to `_ptr`
and never inspects it; the function returns `Ok(true)` unconditionally once
the first two steps succeed. -/
def add_devmem (ch : Chan) (segid : MemSegId) (name : SegName) (base : Nat)
    (len : Nat) : RResult Bool ErrorKind × List Request :=
  match alloc_memseg ch segid len name with
  | (.err e, tr) => (.err e, tr)
  | (.ok _, tr1) =>
    match get_devmem_offset ch segid with
    | (.err e, tr2) => (.err e, tr1 ++ tr2)
    | (.ok mapoff, tr2) =>
      let _ptr := ch.hostMmapResp base len mapoff
      (.ok true, tr1 ++ tr2 ++ [.hostMmap base len mapoff])

/-- Embedding of `VirtualMachine::add_guest_memory` (`vm.rs` lines 239-263): allocate an
anonymous segment, map it into the guest address space (the source passes
`MemSegId::VM_LOWMEM` to `mmap_memseg` regardless of `segid`), then
`libc::mmap` on the host, failing with `AddrNotAvailable` on `MAP_FAILED`. -/
def add_guest_memory (ch : Chan) (vm : VirtualMachine) (segid : MemSegId)
    (gpa : Nat) (base : Nat) (len : Nat) :
    RResult Bool ErrorKind × List Request :=
  match alloc_memseg ch segid len [] with
  | (.err e, tr) => (.err e, tr)
  | (.ok _, tr1) =>
    match mmap_memseg ch vm gpa MemSegId.VM_LOWMEM 0 len
        (PROT_READ ||| PROT_WRITE ||| PROT_EXEC) with
    | (.err e, tr2) => (.err e, tr1 ++ tr2)
    | (.ok _, tr2) =>
      match ch.hostMmapResp base len 0 with
      | .err _ => (.err .addrNotAvailable, tr1 ++ tr2 ++ [.hostMmap base len 0])
      | .ok _ => (.ok true, tr1 ++ tr2 ++ [.hostMmap base len 0])

/-- The byte string "bootrom". -/
def bootromName : SegName := [0x62, 0x6f, 0x6f, 0x74, 0x72, 0x6f, 0x6d]

/-- Embedding of `VirtualMachine::setup_bootrom` (`vm.rs` lines 286-303).  `pageSize` is
the host page size reported by `sysconf(_SC_PAGESIZE)`. -/
def setup_bootrom (ch : Chan) (vm : VirtualMachine) (pageSize : Nat)
    (base : Nat) (len : Nat) : RResult Bool ErrorKind × List Request :=
  if len > MAX_BOOTROM_SIZE ∨ len < pageSize then (.err .invalidInput, [])
  else
    match add_devmem ch MemSegId.VM_BOOTROM bootromName base len with
    | (.err e, tr) => (.err e, tr)
    | (.ok _, tr1) =>
      match mmap_memseg ch vm (2 ^ 32 - len) MemSegId.VM_BOOTROM 0 len
          (PROT_READ ||| PROT_EXEC) with
      | (.err e, tr2) => (.err e, tr1 ++ tr2)
      | (.ok _, tr2) => (.ok true, tr1 ++ tr2)

/-- Embedding of `VirtualMachine::setup_lowmem` (`vm.rs` lines 305-315). -/
def setup_lowmem (ch : Chan) (vm : VirtualMachine) (base : Nat) (len : Nat) :
    RResult Bool ErrorKind × List Request :=
  if len > vm.lowmem_limit then (.err .invalidInput, [])
  else
    match add_guest_memory ch vm MemSegId.VM_LOWMEM 0 base len with
    | (.err e, tr) => (.err e, tr)
    | (.ok _, tr) => (.ok true, tr)

-- A deterministic instantiation of the channel over a segment table, for
-- the claims about repeated allocation.  Modelled from the spec: section 6
-- describes the external peer's `get-segment(role) -> (length, name)` and
-- `allocate-segment` operations, and section 4.1 states that an unallocated
-- segment reads back with length 0.

/-- The kernel-side segment table: each role's stored (length, name). -/
def SegTable := MemSegId → SegRec

/-- Modelled from the spec: the channel over a segment table.  `get-segment`
returns the stored record (length 0 when unallocated, spec section 4.1);
the allocation ioctl succeeds; no mappings exist. -/
def chanOfTable (t : SegTable) : Chan :=
  { getSegResp := fun sid => .ok (t sid)
    allocOk := true
    getnextResp := fun _ => .err .osError
    mmapOk := true
    devmemOffResp := fun _ => .ok 0
    hostMmapResp := fun b _ _ => .ok b }

/-- Modelled from the spec: the effect of one issued request on the segment
table — `allocate-segment` installs the requested (length, name) for the
role (spec sections 4.1 and 6); other requests leave it unchanged. -/
def applyReq (t : SegTable) : Request → SegTable
  | .allocSeg segid len name => fun sid => if sid = segid then ⟨len, name⟩ else t sid
  | _ => t

/-- Fold `applyReq` over a request trace. -/
def applyReqs (t : SegTable) : List Request → SegTable
  | [] => t
  | r :: rs => applyReqs (applyReq t r) rs

/-- One `alloc_memseg` call against the table-backed channel: the result,
the table after the issued requests take effect, and the trace. -/
def allocStep (t : SegTable) (segid : MemSegId) (len : Nat) (name : SegName) :
    RResult Bool ErrorKind × SegTable × List Request :=
  match alloc_memseg (chanOfTable t) segid len name with
  | (r, tr) => (r, applyReqs t tr, tr)

-- Theorems for the bounds claims.

/-- C4: For every length `len`, `setup_bootrom(base, len)` with `len` below
one host page or above 16 MiB returns `InvalidInput` before issuing any
request: the trace is empty, so no segment allocation, no device-memory
offset resolution and no mapping request occur on this error path. -/
theorem setup_bootrom_bounds (ch : Chan) (vm : VirtualMachine)
    (pageSize base len : Nat) (h : len > MAX_BOOTROM_SIZE ∨ len < pageSize) :
    setup_bootrom ch vm pageSize base len = (.err .invalidInput, []) := by
  unfold setup_bootrom
  rw [if_pos h]

/-- Witness for C4 at `len = 0`, `pageSize = 4096`. -/
theorem setup_bootrom_bounds_witness :
    ((0 : Nat) > MAX_BOOTROM_SIZE ∨ (0 : Nat) < 4096) ∧
    setup_bootrom (chanOfTable (fun _ => ⟨0, []⟩)) (VirtualMachine.new "t1")
      4096 0 0 = (.err .invalidInput, []) :=
  ⟨Or.inr (by decide),
   setup_bootrom_bounds (chanOfTable (fun _ => ⟨0, []⟩))
     (VirtualMachine.new "t1") 4096 0 0 (Or.inr (by decide))⟩

/-- C9: `setup_lowmem(base, len)` with `len` strictly greater than the
handle's `lowmem_limit` fails with `InvalidInput` before issuing any
allocation or mapping request (empty trace), and a freshly created handle
has `lowmem_limit` equal to 3 GiB. -/
theorem setup_lowmem_limit (ch : Chan) (vm : VirtualMachine) (base len : Nat)
    (h : len > vm.lowmem_limit) :
    setup_lowmem ch vm base len = (.err .invalidInput, []) ∧
    (∀ nm : String, (VirtualMachine.new nm).lowmem_limit = 3 * GB) := by
  constructor
  · unfold setup_lowmem
    rw [if_pos h]
  · intro nm
    rfl

/-- Witness for C9: a fresh handle has limit `3 * GB = 3221225472`, and a
request one byte past it is rejected with an empty trace. -/
theorem setup_lowmem_limit_witness :
    (3 * GB + 1 : Nat) > (VirtualMachine.new "t1").lowmem_limit ∧
    setup_lowmem (chanOfTable (fun _ => ⟨0, []⟩)) (VirtualMachine.new "t1")
      0 (3 * GB + 1) = (.err .invalidInput, []) ∧
    (VirtualMachine.new "t1").lowmem_limit = 3 * GB :=
  ⟨by decide,
   (setup_lowmem_limit (chanOfTable (fun _ => ⟨0, []⟩))
      (VirtualMachine.new "t1") 0 (3 * GB + 1) (by decide)).1,
   (setup_lowmem_limit (chanOfTable (fun _ => ⟨0, []⟩))
      (VirtualMachine.new "t1") 0 (3 * GB + 1) (by decide)).2 "t1"⟩

-- Theorems for the mapping claims (C1, C10).

/-- C1: For every VM handle and mapping request, when the find-next query at
`gpa` reports an existing mapping starting exactly at `gpa`: if it agrees on
segment id, segment offset, protection and the wired flag derived from the
handle's mem-flags, the call returns success and the trace holds only the
find-next query (no mapping request); if it differs in any of those fields
the call fails with `AlreadyExists`, again without a mapping request. -/
theorem mmap_memseg_exact_address_match (ch : Chan) (vm : VirtualMachine)
    (gpa : Nat) (segid : MemSegId) (off : Int) (len : Nat) (prot : Nat)
    (m : VmMemmap) (hget : ch.getnextResp gpa = .ok m) (hgpa : m.gpa = gpa) :
    ((m.segid = segid.toNat ∧ m.segoff = off ∧ m.prot = prot ∧
        m.flags = memmapFlags vm.memflags) →
      mmap_memseg ch vm gpa segid off len prot = (.ok true, [.getnext gpa])) ∧
    (¬(m.segid = segid.toNat ∧ m.segoff = off ∧ m.prot = prot ∧
        m.flags = memmapFlags vm.memflags) →
      mmap_memseg ch vm gpa segid off len prot =
        (.err .alreadyExists, [.getnext gpa])) := by
  constructor
  · intro h
    simp only [mmap_memseg, mkMemmap, hget]
    rw [if_pos hgpa, if_pos h]
  · intro h
    simp only [mmap_memseg, mkMemmap, hget]
    rw [if_pos hgpa, if_neg h]

/-- An existing mapping reported by the channel's find-next query, used by
the witnesses: it starts at 4096 with protection 3 and no flags. -/
def mapW : VmMemmap :=
  { gpa := 4096, segid := 2, segoff := 0, len := 4096, prot := 3, flags := 0 }

/-- A concrete channel for the mapping witnesses: the find-next query at
4096 reports `mapW`, and reports no mapping anywhere else. -/
def chanW1 : Chan :=
  { getSegResp := fun _ => .ok ⟨0, []⟩
    allocOk := true
    getnextResp := fun g => if g = 4096 then .ok mapW else .err .osError
    mmapOk := true
    devmemOffResp := fun _ => .ok 0
    hostMmapResp := fun b _ _ => .ok b }

/-- Witness for C1: a request at 4096 whose protection (5) differs from the
existing mapping's (3) fails with `AlreadyExists` and issues no mapping
request. -/
theorem mmap_memseg_exact_address_match_witness :
    chanW1.getnextResp 4096 = .ok mapW ∧ mapW.gpa = 4096 ∧
    ¬(mapW.segid = MemSegId.VM_BOOTROM.toNat ∧ mapW.segoff = 0 ∧
        mapW.prot = 5 ∧
        mapW.flags = memmapFlags (VirtualMachine.new "t1").memflags) ∧
    mmap_memseg chanW1 (VirtualMachine.new "t1") 4096 MemSegId.VM_BOOTROM
      0 4096 5 = (.err .alreadyExists, [.getnext 4096]) :=
  ⟨by decide, by decide, by decide,
   (mmap_memseg_exact_address_match chanW1 (VirtualMachine.new "t1") 4096
      MemSegId.VM_BOOTROM 0 4096 5 mapW (by decide) (by decide)).2 (by decide)⟩

/-- C10: the duplicate check of `mmap_memseg` only compares against a
mapping starting exactly at `gpa`: whenever the find-next query fails, or
returns a mapping whose start address is strictly greater than `gpa`, the
new mapping request is issued unconditionally — an existing mapping that
starts below `gpa` but overlaps `[gpa, gpa+len)` is never detected here. -/
theorem mmap_memseg_no_overlap_detection (ch : Chan) (vm : VirtualMachine)
    (gpa : Nat) (segid : MemSegId) (off : Int) (len : Nat) (prot : Nat) :
    (∀ e, ch.getnextResp gpa = .err e →
      Request.mmapSeg (mkMemmap vm gpa segid off len prot) ∈
        (mmap_memseg ch vm gpa segid off len prot).2) ∧
    (∀ m, ch.getnextResp gpa = .ok m → gpa < m.gpa →
      Request.mmapSeg (mkMemmap vm gpa segid off len prot) ∈
        (mmap_memseg ch vm gpa segid off len prot).2) := by
  constructor
  · intro e hget
    simp only [mmap_memseg, hget]
    cases hm : ch.mmapOk <;> simp
  · intro m hget hlt
    have hne : ¬(m.gpa = (mkMemmap vm gpa segid off len prot).gpa) := by
      simp only [mkMemmap]
      omega
    simp only [mmap_memseg, hget]
    rw [if_neg hne]
    cases hm : ch.mmapOk <;> simp

/-- Witness for C10: at 8192 the find-next query fails, and the mapping
request is issued. -/
theorem mmap_memseg_no_overlap_detection_witness :
    chanW1.getnextResp 8192 = .err .osError ∧
    Request.mmapSeg (mkMemmap (VirtualMachine.new "t1") 8192
        MemSegId.VM_LOWMEM 0 4096 7) ∈
      (mmap_memseg chanW1 (VirtualMachine.new "t1") 8192 MemSegId.VM_LOWMEM
        0 4096 7).2 :=
  ⟨by decide,
   (mmap_memseg_no_overlap_detection chanW1 (VirtualMachine.new "t1") 8192
      MemSegId.VM_LOWMEM 0 4096 7).1 .osError (by decide)⟩

-- Theorems for the allocation claims (C2, C3).

/-- Reading back a NUL-free byte string through `CStr` is the identity. -/
theorem cstrOf_of_not_hasNul : ∀ (name : SegName), hasNul name = false →
    cstrOf name = name
  | [], _ => rfl
  | b :: bs, h => by
    have h' : (b == 0) = false ∧ hasNul bs = false := by
      simpa [hasNul, Bool.or_eq_false_iff] using h
    have hb : (b != 0) = true := by
      simp [bne, h'.1]
    simp only [cstrOf, List.takeWhile_cons, hb, if_true]
    exact congrArg (List.cons b) (cstrOf_of_not_hasNul bs h'.2)

/-- A segment table holding one allocated 4096-byte segment named `"a"`
under the boot-ROM role. -/
def tableC2 : SegTable := fun sid =>
  if sid = MemSegId.VM_BOOTROM then ⟨4096, [97]⟩ else ⟨0, []⟩

/-- Counterexample for C2: re-allocating the boot-ROM segment with a
different length fails with the `InvalidInput` kind — not with a distinct
`Conflict` kind as the specification's error taxonomy promises. -/
theorem alloc_memseg_conflict_counterexample :
    tableC2 MemSegId.VM_BOOTROM = ⟨4096, [97]⟩ ∧
    (allocStep tableC2 MemSegId.VM_BOOTROM 8192 [97]).1 = .err .invalidInput ∧
    (allocStep tableC2 MemSegId.VM_BOOTROM 8192 [97]).1 ≠ .err .conflict := by
  decide

/-- C2 amended: re-allocating a role that holds `(L1, N1)` with nonzero
`L1` under different `(L2, N2)` fails with the `InvalidInput` error kind
(the code reuses the kind of structural errors; no distinct Conflict kind
exists), issues no allocation request (the trace holds only the get-segment
query), and leaves the segment table unchanged. -/
theorem alloc_memseg_conflict (t : SegTable) (segid : MemSegId)
    (L1 L2 : Nat) (N1 N2 : SegName)
    (hseg : t segid = ⟨L1, N1⟩) (hL1 : L1 ≠ 0)
    (hnul1 : hasNul N1 = false) (hnul2 : hasNul N2 = false)
    (hne : L1 ≠ L2 ∨ N1 ≠ N2) :
    (allocStep t segid L2 N2).1 = .err .invalidInput ∧
    (allocStep t segid L2 N2).2.2 = [.getSeg segid] ∧
    (∀ sid, (allocStep t segid L2 N2).2.1 sid = t sid) := by
  have hcond : ¬(L1 = L2 ∧ cstrOf N1 = N2) := by
    rw [cstrOf_of_not_hasNul N1 hnul1]
    rcases hne with h | h
    · exact fun hc => h hc.1
    · exact fun hc => h hc.2
  have halloc : alloc_memseg (chanOfTable t) segid L2 N2 =
      (.err .invalidInput, [.getSeg segid]) := by
    simp [alloc_memseg, chanOfTable, hseg, hnul2, hL1, hcond]
  refine ⟨?_, ?_, ?_⟩ <;> simp [allocStep, halloc, applyReqs, applyReq]

/-- Witness for C2's amended theorem, at the concrete table `tableC2`. -/
theorem alloc_memseg_conflict_witness :
    (tableC2 MemSegId.VM_BOOTROM = ⟨4096, [97]⟩ ∧ (4096 : Nat) ≠ 0 ∧
      hasNul [97] = false ∧ ((4096 : Nat) ≠ 8192 ∨ ([97] : SegName) ≠ [97])) ∧
    (allocStep tableC2 MemSegId.VM_BOOTROM 8192 [97]).1 = .err .invalidInput ∧
    (allocStep tableC2 MemSegId.VM_BOOTROM 8192 [97]).2.2 =
      [.getSeg MemSegId.VM_BOOTROM] ∧
    (∀ sid, (allocStep tableC2 MemSegId.VM_BOOTROM 8192 [97]).2.1 sid =
      tableC2 sid) :=
  ⟨⟨by decide, by decide, by decide, Or.inl (by decide)⟩,
   alloc_memseg_conflict tableC2 MemSegId.VM_BOOTROM 4096 8192 [97] [97]
     (by decide) (by decide) (by decide) (by decide) (Or.inl (by decide))⟩

/-- Behaviour of one allocation step when the role already holds exactly
the requested (length, name): success without an allocation request. -/
theorem allocStep_existing (t : SegTable) (segid : MemSegId) (len : Nat)
    (name : SegName) (hseg : t segid = ⟨len, name⟩) (hlen : len ≠ 0)
    (hnul : hasNul name = false) :
    (allocStep t segid len name).1 = .ok true ∧
    (allocStep t segid len name).2.2 = [.getSeg segid] ∧
    (∀ sid, (allocStep t segid len name).2.1 sid = t sid) := by
  have halloc : alloc_memseg (chanOfTable t) segid len name =
      (.ok true, [.getSeg segid]) := by
    simp [alloc_memseg, chanOfTable, hseg, hnul, hlen,
      cstrOf_of_not_hasNul name hnul]
  refine ⟨?_, ?_, ?_⟩ <;> simp [allocStep, halloc, applyReqs, applyReq]

/-- Behaviour of one allocation step when the role is unallocated (stored
length 0): success, issuing the allocation request, which installs the
requested (length, name). -/
theorem allocStep_absent (t : SegTable) (segid : MemSegId) (len : Nat)
    (name : SegName) (hseg : (t segid).len = 0)
    (hnul : hasNul name = false) (hcap : name.length < SPECNAMELEN + 1) :
    (allocStep t segid len name).1 = .ok true ∧
    (allocStep t segid len name).2.2 = [.getSeg segid, .allocSeg segid len name] ∧
    (∀ sid, (allocStep t segid len name).2.1 sid =
      if sid = segid then ⟨len, name⟩ else t sid) := by
  have halloc : alloc_memseg (chanOfTable t) segid len name =
      (.ok true, [.getSeg segid, .allocSeg segid len name]) := by
    have hA : ¬(name.length > 0 ∧ name.length ≥ SPECNAMELEN + 1) := by omega
    simp [alloc_memseg, chanOfTable, hseg, hnul, hA]
  refine ⟨?_, ?_, ?_⟩ <;> simp [allocStep, halloc, applyReqs, applyReq]

/-- C3: for valid arguments (nonzero length, NUL-free name fitting the
64-byte buffer) against a table where the role is unallocated or already
holds exactly the requested segment, two identical `allocate` calls both
succeed; the second call issues no allocation request (its trace is only
the get-segment query) and leaves the segment table unchanged. -/
theorem alloc_memseg_idempotent (t : SegTable) (segid : MemSegId) (len : Nat)
    (name : SegName) (hlen : 0 < len) (hnul : hasNul name = false)
    (hcap : name.length < SPECNAMELEN + 1)
    (hfit : (t segid).len = 0 ∨ t segid = ⟨len, name⟩) :
    (allocStep t segid len name).1 = .ok true ∧
    (allocStep (allocStep t segid len name).2.1 segid len name).1 = .ok true ∧
    (allocStep (allocStep t segid len name).2.1 segid len name).2.2 =
      [.getSeg segid] ∧
    (∀ sid, (allocStep (allocStep t segid len name).2.1 segid len name).2.1 sid =
      (allocStep t segid len name).2.1 sid) := by
  have hlen' : len ≠ 0 := Nat.pos_iff_ne_zero.mp hlen
  rcases hfit with h0 | hex
  · obtain ⟨h1, _, h3⟩ := allocStep_absent t segid len name h0 hnul hcap
    have hseg1 : (allocStep t segid len name).2.1 segid = ⟨len, name⟩ := by
      rw [h3 segid]
      simp
    obtain ⟨g1, g2, g3⟩ := allocStep_existing _ segid len name hseg1 hlen' hnul
    exact ⟨h1, g1, g2, g3⟩
  · obtain ⟨h1, _, h3⟩ := allocStep_existing t segid len name hex hlen' hnul
    have hseg1 : (allocStep t segid len name).2.1 segid = ⟨len, name⟩ :=
      (h3 segid).trans hex
    obtain ⟨g1, g2, g3⟩ := allocStep_existing _ segid len name hseg1 hlen' hnul
    exact ⟨h1, g1, g2, g3⟩

/-- The all-unallocated segment table. -/
def emptyTable : SegTable := fun _ => ⟨0, []⟩

/-- Witness for C3: allocating the boot-ROM segment twice from the empty
table succeeds both times with no second allocation request. -/
theorem alloc_memseg_idempotent_witness :
    ((0 : Nat) < 4096 ∧ hasNul bootromName = false ∧
      bootromName.length < SPECNAMELEN + 1 ∧
      (emptyTable MemSegId.VM_BOOTROM).len = 0) ∧
    (allocStep emptyTable MemSegId.VM_BOOTROM 4096 bootromName).1 = .ok true ∧
    (allocStep (allocStep emptyTable MemSegId.VM_BOOTROM 4096 bootromName).2.1
      MemSegId.VM_BOOTROM 4096 bootromName).1 = .ok true ∧
    (allocStep (allocStep emptyTable MemSegId.VM_BOOTROM 4096 bootromName).2.1
      MemSegId.VM_BOOTROM 4096 bootromName).2.2 = [.getSeg MemSegId.VM_BOOTROM] ∧
    (∀ sid, (allocStep (allocStep emptyTable MemSegId.VM_BOOTROM 4096
        bootromName).2.1 MemSegId.VM_BOOTROM 4096 bootromName).2.1 sid =
      (allocStep emptyTable MemSegId.VM_BOOTROM 4096 bootromName).2.1 sid) :=
  ⟨⟨by decide, by decide, by decide, by decide⟩,
   alloc_memseg_idempotent emptyTable MemSegId.VM_BOOTROM 4096 bootromName
     (by decide) (by decide) (by decide) (Or.inl (by decide))⟩

-- Theorems for the device-memory mapping sequence (C7).

/-- A channel on which segment allocation and offset resolution succeed but
every host `libc::mmap` call fails with `MAP_FAILED`. -/
def chanC7 : Chan :=
  { getSegResp := fun _ => .ok ⟨0, []⟩
    allocOk := true
    getnextResp := fun _ => .err .osError
    mmapOk := true
    devmemOffResp := fun _ => .ok 0
    hostMmapResp := fun _ _ _ => .err () }

/-- Counterexample for C7: the final host-mapping step fails (`MAP_FAILED`),
yet `add_devmem` returns success instead of that step's error — the source
binds the `libc::mmap` result to `_ptr` and never checks it. -/
theorem add_devmem_ignores_hostmap_failure :
    chanC7.hostMmapResp 0 4096 0 = .err () ∧
    (add_devmem chanC7 MemSegId.VM_BOOTROM bootromName 0 4096).1 = .ok true := by
  decide

/-- C7 amended: a failure of the allocation step or of the offset-resolution
step aborts the remaining steps and the operation returns that step's error,
with no later request issued and no rollback; but the final host-mapping
step's result is ignored — once the first two steps succeed the operation
returns success regardless of the host mmap response. -/
theorem add_devmem_error_flow (ch : Chan) (segid : MemSegId) (name : SegName)
    (base len : Nat) :
    (∀ e tr, alloc_memseg ch segid len name = (.err e, tr) →
      add_devmem ch segid name base len = (.err e, tr)) ∧
    (∀ e, (alloc_memseg ch segid len name).1 = .ok true →
      ch.devmemOffResp segid = .err e →
      add_devmem ch segid name base len =
        (.err e, (alloc_memseg ch segid len name).2 ++ [.devmemOffset segid])) ∧
    (∀ off, (alloc_memseg ch segid len name).1 = .ok true →
      ch.devmemOffResp segid = .ok off →
      (add_devmem ch segid name base len).1 = .ok true) := by
  refine ⟨?_, ?_, ?_⟩
  · intro e tr h
    simp [add_devmem, h]
  · intro e hok hoff
    rcases ha : alloc_memseg ch segid len name with ⟨r, tr1⟩
    rw [ha] at hok
    simp only at hok
    subst hok
    simp [add_devmem, ha, get_devmem_offset, hoff]
  · intro off hok hoff
    rcases ha : alloc_memseg ch segid len name with ⟨r, tr1⟩
    rw [ha] at hok
    simp only at hok
    subst hok
    simp [add_devmem, ha, get_devmem_offset, hoff]

/-- Witness for C7's amended theorem: on `chanC7` the first two steps
succeed and `add_devmem` returns success even though the host mmap fails. -/
theorem add_devmem_error_flow_witness :
    ((alloc_memseg chanC7 MemSegId.VM_BOOTROM 4096 bootromName).1 = .ok true ∧
      chanC7.devmemOffResp MemSegId.VM_BOOTROM = .ok 0) ∧
    (add_devmem chanC7 MemSegId.VM_BOOTROM bootromName 0 4096).1 = .ok true :=
  ⟨⟨by decide, by decide⟩,
   (add_devmem_error_flow chanC7 MemSegId.VM_BOOTROM bootromName 0 4096).2.2
     0 (by decide) (by decide)⟩

-- Theorems for the boot-ROM guest-side mapping (C8).

/-- Function `alloc_memseg` never issues a guest-mapping request. -/
theorem alloc_memseg_trace_no_mmap (ch : Chan) (segid : MemSegId) (len : Nat)
    (name : SegName) (m : VmMemmap) :
    Request.mmapSeg m ∉ (alloc_memseg ch segid len name).2 := by
  unfold alloc_memseg
  repeat' split
  all_goals simp

/-- Function `add_devmem` never issues a guest-mapping request (its trace holds only
get-segment, alloc-segment, offset-resolution and host-mmap entries). -/
theorem add_devmem_trace_no_mmap (ch : Chan) (segid : MemSegId)
    (name : SegName) (base len : Nat) (m : VmMemmap) :
    Request.mmapSeg m ∉ (add_devmem ch segid name base len).2 := by
  have hnom := alloc_memseg_trace_no_mmap ch segid len name m
  unfold add_devmem
  rcases ha : alloc_memseg ch segid len name with ⟨r, tr⟩
  rw [ha] at hnom
  simp only at hnom
  cases r with
  | err e => simpa using hnom
  | ok b =>
    simp only [get_devmem_offset]
    cases hoff : ch.devmemOffResp segid <;> simp_all

/-- Every guest-mapping request issued by `mmap_memseg` is exactly the
record built from its arguments. -/
theorem mmap_memseg_trace_shape (ch : Chan) (vm : VirtualMachine) (gpa : Nat)
    (segid : MemSegId) (off : Int) (len : Nat) (prot : Nat) (m : VmMemmap) :
    Request.mmapSeg m ∈ (mmap_memseg ch vm gpa segid off len prot).2 →
    m = mkMemmap vm gpa segid off len prot := by
  intro hm
  simp only [mmap_memseg] at hm
  repeat' split at hm
  all_goals simp_all

/-- C8: for a valid boot-ROM length (at least one host page, at most
16 MiB), every guest-side mapping request issued by `setup_bootrom` is for
guest-physical address `2^32 - len` with read+execute protection, segment
offset 0 and the boot-ROM segment id; and when the allocation phase
succeeds and no mapping exists at that address, the request is issued. -/
theorem setup_bootrom_guest_mapping (ch : Chan) (vm : VirtualMachine)
    (pageSize base len : Nat)
    (hb : ¬(len > MAX_BOOTROM_SIZE ∨ len < pageSize)) :
    (∀ m, Request.mmapSeg m ∈ (setup_bootrom ch vm pageSize base len).2 →
      m = mkMemmap vm (2 ^ 32 - len) MemSegId.VM_BOOTROM 0 len
        (PROT_READ ||| PROT_EXEC)) ∧
    ((add_devmem ch MemSegId.VM_BOOTROM bootromName base len).1 = .ok true →
      ∀ e, ch.getnextResp (2 ^ 32 - len) = .err e →
      Request.mmapSeg (mkMemmap vm (2 ^ 32 - len) MemSegId.VM_BOOTROM 0 len
        (PROT_READ ||| PROT_EXEC)) ∈
        (setup_bootrom ch vm pageSize base len).2) := by
  constructor
  · intro m hm
    unfold setup_bootrom at hm
    rw [if_neg hb] at hm
    have hnom := add_devmem_trace_no_mmap ch MemSegId.VM_BOOTROM bootromName
      base len m
    rcases ha : add_devmem ch MemSegId.VM_BOOTROM bootromName base len
      with ⟨r, tr1⟩
    rw [ha] at hm hnom
    simp only at hnom
    cases r with
    | err e => simp only at hm; exact absurd hm hnom
    | ok b =>
      have hshape := mmap_memseg_trace_shape ch vm (2 ^ 32 - len)
        MemSegId.VM_BOOTROM 0 len (PROT_READ ||| PROT_EXEC) m
      rcases hmm : mmap_memseg ch vm (2 ^ 32 - len) MemSegId.VM_BOOTROM 0 len
        (PROT_READ ||| PROT_EXEC) with ⟨r2, tr2⟩
      rw [hmm] at hm hshape
      simp only at hshape
      cases r2 <;> simp only [List.mem_append] at hm <;>
        rcases hm with hm | hm
      · exact absurd hm hnom
      · exact hshape hm
      · exact absurd hm hnom
      · exact hshape hm
  · intro hdev e hget
    unfold setup_bootrom
    rw [if_neg hb]
    rcases ha : add_devmem ch MemSegId.VM_BOOTROM bootromName base len
      with ⟨r, tr1⟩
    rw [ha] at hdev
    simp only at hdev
    subst hdev
    simp only [mmap_memseg, hget]
    cases hm : ch.mmapOk <;> simp

/-- Witness for C8: with boot-ROM length 4096 and page size 4096 on
`chanC7`, the guest-side mapping request at `2^32 - 4096` with
read+execute protection is issued. -/
theorem setup_bootrom_guest_mapping_witness :
    (¬((4096 : Nat) > MAX_BOOTROM_SIZE ∨ (4096 : Nat) < 4096) ∧
      (add_devmem chanC7 MemSegId.VM_BOOTROM bootromName 0 4096).1 = .ok true ∧
      chanC7.getnextResp (2 ^ 32 - 4096) = .err .osError) ∧
    Request.mmapSeg (mkMemmap (VirtualMachine.new "t1") (2 ^ 32 - 4096)
      MemSegId.VM_BOOTROM 0 4096 (PROT_READ ||| PROT_EXEC)) ∈
      (setup_bootrom chanC7 (VirtualMachine.new "t1") 4096 0 4096).2 :=
  ⟨⟨by decide, by decide, by decide⟩,
   (setup_bootrom_guest_mapping chanC7 (VirtualMachine.new "t1") 4096 0 4096
     (by decide)).2 (by decide) .osError (by decide)⟩

-- vCPU register and descriptor state (C5).

/-- The `vm_reg_name` enum of `include/vmm.rs`. -/
inductive RegName where
  | VM_REG_GUEST_RAX
  | VM_REG_GUEST_RBX
  | VM_REG_GUEST_RCX
  | VM_REG_GUEST_RDX
  | VM_REG_GUEST_RSI
  | VM_REG_GUEST_RDI
  | VM_REG_GUEST_RBP
  | VM_REG_GUEST_R8
  | VM_REG_GUEST_R9
  | VM_REG_GUEST_R10
  | VM_REG_GUEST_R11
  | VM_REG_GUEST_R12
  | VM_REG_GUEST_R13
  | VM_REG_GUEST_R14
  | VM_REG_GUEST_R15
  | VM_REG_GUEST_CR0
  | VM_REG_GUEST_CR3
  | VM_REG_GUEST_CR4
  | VM_REG_GUEST_DR7
  | VM_REG_GUEST_RSP
  | VM_REG_GUEST_RIP
  | VM_REG_GUEST_RFLAGS
  | VM_REG_GUEST_ES
  | VM_REG_GUEST_CS
  | VM_REG_GUEST_SS
  | VM_REG_GUEST_DS
  | VM_REG_GUEST_FS
  | VM_REG_GUEST_GS
  | VM_REG_GUEST_LDTR
  | VM_REG_GUEST_TR
  | VM_REG_GUEST_IDTR
  | VM_REG_GUEST_GDTR
  | VM_REG_GUEST_EFER
  | VM_REG_GUEST_CR2
  | VM_REG_GUEST_PDPTE0
  | VM_REG_GUEST_PDPTE1
  | VM_REG_GUEST_PDPTE2
  | VM_REG_GUEST_PDPTE3
  | VM_REG_GUEST_INTR_SHADOW
  | VM_REG_GUEST_DR0
  | VM_REG_GUEST_DR1
  | VM_REG_GUEST_DR2
  | VM_REG_GUEST_DR3
  | VM_REG_GUEST_DR6
  | VM_REG_LAST
  deriving DecidableEq, Repr

/-- The `seg_desc` record of `include/vmm.rs`: base, limit and access
rights of a segment descriptor. -/
structure SegDescr where
  base : Nat
  limit : Nat
  access : Nat
  deriving DecidableEq, Repr

/-- The architectural state of one vCPU as visible through the register
and descriptor get/set ioctls: one 64-bit value per register name, and one
descriptor per descriptor-capable register name. -/
structure VcpuState where
  regs : RegName → Nat
  descs : RegName → SegDescr

/-- Embedding of `VirtualMachine::set_register` (`vm.rs` lines 358-371), as the state
update a successful `VM_SET_REGISTER` request performs. -/
def set_register (s : VcpuState) (reg : RegName) (val : Nat) : VcpuState :=
  { s with regs := fun r => if r = reg then val else s.regs r }

/-- Embedding of `VirtualMachine::set_desc` (`vm.rs` lines 326-339), as the state update
a successful `VM_SET_SEGMENT_DESCRIPTOR` request performs. -/
def set_desc (s : VcpuState) (reg : RegName) (base : Nat) (limit : Nat)
    (access : Nat) : VcpuState :=
  { s with descs := fun r =>
      if r = reg then ⟨base, limit, access⟩ else s.descs r }

/-- Embedding of `VirtualMachine::vcpu_reset` (`vm.rs` lines 538-594): the fixed
sequence of register and descriptor writes reproducing the IA-32 power-up
state, in source order, assuming every write succeeds. -/
def vcpu_reset (s0 : VcpuState) : VcpuState :=
  let s := set_register s0 .VM_REG_GUEST_RFLAGS 0x2
  let s := set_register s .VM_REG_GUEST_RIP 0xfff0
  let s := set_register s .VM_REG_GUEST_CR0 CR0_NE
  let s := set_register s .VM_REG_GUEST_CR3 0
  let s := set_register s .VM_REG_GUEST_CR4 0
  let s := set_desc s .VM_REG_GUEST_CS 0xffff0000 0xffff 0x0093
  let s := set_register s .VM_REG_GUEST_CS 0xf000
  let s := set_desc s .VM_REG_GUEST_SS 0 0xffff 0x0093
  let s := set_desc s .VM_REG_GUEST_DS 0 0xffff 0x0093
  let s := set_desc s .VM_REG_GUEST_ES 0 0xffff 0x0093
  let s := set_desc s .VM_REG_GUEST_FS 0 0xffff 0x0093
  let s := set_desc s .VM_REG_GUEST_GS 0 0xffff 0x0093
  let s := set_register s .VM_REG_GUEST_SS 0
  let s := set_register s .VM_REG_GUEST_DS 0
  let s := set_register s .VM_REG_GUEST_ES 0
  let s := set_register s .VM_REG_GUEST_FS 0
  let s := set_register s .VM_REG_GUEST_GS 0
  let s := set_register s .VM_REG_GUEST_RAX 0
  let s := set_register s .VM_REG_GUEST_RBX 0
  let s := set_register s .VM_REG_GUEST_RCX 0
  let s := set_register s .VM_REG_GUEST_RDX 0xf00
  let s := set_register s .VM_REG_GUEST_RSI 0
  let s := set_register s .VM_REG_GUEST_RDI 0
  let s := set_register s .VM_REG_GUEST_RBP 0
  let s := set_register s .VM_REG_GUEST_RSP 0
  let s := set_desc s .VM_REG_GUEST_GDTR 0 0xffff 0
  let s := set_desc s .VM_REG_GUEST_IDTR 0 0xffff 0
  let s := set_desc s .VM_REG_GUEST_TR 0 0 0x0000008b
  let s := set_register s .VM_REG_GUEST_TR 0
  let s := set_desc s .VM_REG_GUEST_LDTR 0 0xffff 0x00000082
  let s := set_register s .VM_REG_GUEST_LDTR 0
  s

/-- C5: after a successful reset sequence, from any prior state: the CS
descriptor is based at 0xFFFF0000 with selector 0xF000; the SS/DS/ES/FS/GS
descriptors are based at 0 with selector 0; RIP is 0xFFF0; CR0 holds
exactly the numeric-error bit; CR3 and CR4 are 0; GDTR and IDTR have base 0
and limit 0xFFFF; the LDTR and TR selectors are 0 with TR carrying the
busy-TSS access byte 0x8B; and the written general-purpose registers are 0
except RDX, which holds the device-id constant 0xF00. -/
theorem vcpu_reset_power_up_state (s : VcpuState) :
    (vcpu_reset s).descs .VM_REG_GUEST_CS = ⟨0xffff0000, 0xffff, 0x0093⟩ ∧
    (vcpu_reset s).regs .VM_REG_GUEST_CS = 0xf000 ∧
    (vcpu_reset s).descs .VM_REG_GUEST_SS = ⟨0, 0xffff, 0x0093⟩ ∧
    (vcpu_reset s).descs .VM_REG_GUEST_DS = ⟨0, 0xffff, 0x0093⟩ ∧
    (vcpu_reset s).descs .VM_REG_GUEST_ES = ⟨0, 0xffff, 0x0093⟩ ∧
    (vcpu_reset s).descs .VM_REG_GUEST_FS = ⟨0, 0xffff, 0x0093⟩ ∧
    (vcpu_reset s).descs .VM_REG_GUEST_GS = ⟨0, 0xffff, 0x0093⟩ ∧
    (vcpu_reset s).regs .VM_REG_GUEST_SS = 0 ∧
    (vcpu_reset s).regs .VM_REG_GUEST_DS = 0 ∧
    (vcpu_reset s).regs .VM_REG_GUEST_ES = 0 ∧
    (vcpu_reset s).regs .VM_REG_GUEST_FS = 0 ∧
    (vcpu_reset s).regs .VM_REG_GUEST_GS = 0 ∧
    (vcpu_reset s).regs .VM_REG_GUEST_RIP = 0xfff0 ∧
    (vcpu_reset s).regs .VM_REG_GUEST_CR0 = CR0_NE ∧
    (vcpu_reset s).regs .VM_REG_GUEST_CR3 = 0 ∧
    (vcpu_reset s).regs .VM_REG_GUEST_CR4 = 0 ∧
    (vcpu_reset s).descs .VM_REG_GUEST_GDTR = ⟨0, 0xffff, 0⟩ ∧
    (vcpu_reset s).descs .VM_REG_GUEST_IDTR = ⟨0, 0xffff, 0⟩ ∧
    (vcpu_reset s).regs .VM_REG_GUEST_LDTR = 0 ∧
    (vcpu_reset s).regs .VM_REG_GUEST_TR = 0 ∧
    (vcpu_reset s).descs .VM_REG_GUEST_TR = ⟨0, 0, 0x8b⟩ ∧
    (vcpu_reset s).regs .VM_REG_GUEST_RAX = 0 ∧
    (vcpu_reset s).regs .VM_REG_GUEST_RBX = 0 ∧
    (vcpu_reset s).regs .VM_REG_GUEST_RCX = 0 ∧
    (vcpu_reset s).regs .VM_REG_GUEST_RDX = 0xf00 ∧
    (vcpu_reset s).regs .VM_REG_GUEST_RSI = 0 ∧
    (vcpu_reset s).regs .VM_REG_GUEST_RDI = 0 ∧
    (vcpu_reset s).regs .VM_REG_GUEST_RBP = 0 ∧
    (vcpu_reset s).regs .VM_REG_GUEST_RSP = 0 := by
  refine ⟨rfl, rfl, rfl, rfl, rfl, rfl, rfl, rfl, rfl, rfl, rfl, rfl, rfl,
    rfl, rfl, rfl, rfl, rfl, rfl, rfl, rfl, rfl, rfl, rfl, rfl, rfl, rfl,
    rfl, rfl⟩

-- The run/exit dispatcher (C6).

/-- The `vm_inout` payload read by `run`: I/O port and accumulator. -/
structure InOutPayload where
  port : Nat
  eax : Nat
  deriving DecidableEq, Repr

/-- The `vm_exit_vmx` payload read by `run`. -/
structure VmxPayload where
  status : Int
  exit_reason : Nat
  exit_qualification : Nat
  inst_type : Int
  inst_error : Int
  deriving DecidableEq, Repr

/-- The union fields of `vm_exit_payload` that `run` reads: `u.inout`,
`u.inout_str.inout` and `u.vmx`. -/
structure ExitPayload where
  inout : InOutPayload
  inout_str_inout : InOutPayload
  vmx : VmxPayload
  deriving DecidableEq, Repr

/-- The `VmExit` enum of `vm.rs`. -/
inductive VmExit where
  | InOut (port : Nat) (eax : Nat)
  | Vmx (status : Int) (reason : Nat) (qual : Nat) (instType : Int)
      (instError : Int)
  | Bogus
  | RdMsr
  | WrMsr
  | Halt
  | Mtrap
  | Pause
  | Paging
  | InstEmul
  | SpinupAp
  | Deprecated
  | RunBlock
  | IoApicEoi
  | Suspended
  | InOutStr (port : Nat) (eax : Nat)
  | TaskSwitch
  | Monitor
  | Mwait
  | Svm
  | ReqIdle
  | Debug
  | VmInsn
  | Ht
  | Max
  deriving DecidableEq, Repr

/-- The exit decoding performed by `VirtualMachine::run` (`vm.rs` lines
633-728) on a successful `VM_RUN` response, as a function of the raw
exit-code tag.  The source matches on the closed Rust enum `vm_exitcode`
(discriminants 0 through 24) with no catch-all arm; a raw tag outside that
range has no defined decoding (reading it as `vm_exitcode` is outside the
Rust program's semantics), which is rendered here as `none`. -/
def decode_exitcode (tag : Nat) (p : ExitPayload) : Option VmExit :=
  match tag with
  | 0 => some (.InOut p.inout.port p.inout.eax)
  | 1 => some (.Vmx p.vmx.status p.vmx.exit_reason p.vmx.exit_qualification
      p.vmx.inst_type p.vmx.inst_error)
  | 2 => some .Bogus
  | 3 => some .RdMsr
  | 4 => some .WrMsr
  | 5 => some .Halt
  | 6 => some .Mtrap
  | 7 => some .Pause
  | 8 => some .Paging
  | 9 => some .InstEmul
  | 10 => some .SpinupAp
  | 11 => some .Deprecated
  | 12 => some .RunBlock
  | 13 => some .IoApicEoi
  | 14 => some .Suspended
  | 15 => some (.InOutStr p.inout_str_inout.port p.inout_str_inout.eax)
  | 16 => some .TaskSwitch
  | 17 => some .Monitor
  | 18 => some .Mwait
  | 19 => some .Svm
  | 20 => some .ReqIdle
  | 21 => some .Debug
  | 22 => some .VmInsn
  | 23 => some .Ht
  | 24 => some .Max
  | _ => none

/-- The all-zero exit payload, for the decoder counterexample. -/
def zeroPayload : ExitPayload := ⟨⟨0, 0⟩, ⟨0, 0⟩, ⟨0, 0, 0, 0, 0⟩⟩

/-- Counterexample for C6: the out-of-range tag 25 is not mapped to the
bogus/residual exit kind — the dispatcher's match has no catch-all arm, so
the tag has no decoding at all. -/
theorem decode_exitcode_unknown_tag_counterexample :
    decode_exitcode 25 zeroPayload = none ∧
    decode_exitcode 25 zeroPayload ≠ some VmExit.Bogus := by
  decide

/-- C6 amended: the decoder is total exactly on the 25 recognized exit-code
tags 0 through 24 (each decodes, without panicking, to its exit kind), and
only the tag of `VM_EXITCODE_BOGUS` (2) maps to the bogus kind; tags
outside the recognized set have no decoding rather than mapping to the
bogus kind. -/
theorem decode_exitcode_total_on_recognized (tag : Nat) (p : ExitPayload) :
    ((decode_exitcode tag p).isSome ↔ tag < 25) ∧
    decode_exitcode 2 p = some VmExit.Bogus := by
  constructor
  · constructor
    · intro h
      by_contra hge
      push_neg at hge
      obtain ⟨k, rfl⟩ : ∃ k, tag = k + 25 := ⟨tag - 25, by omega⟩
      rw [show decode_exitcode (k + 25) p = none from rfl] at h
      simp at h
    · intro h
      interval_cases tag <;> simp [decode_exitcode]
  · rfl

end BhyveApi
